import Mathlib

/-!
Verification of the delta-funding-scanner repository (src/funding_bot.py)
against its natural-language specification.

The program is a linear fetch → rank → filter → notify pipeline.  We embed it
shallowly: every pure computation of the script becomes a Lean function on the
same data, and every external effect (the two HTTP endpoints, `time.time()`,
`os.getenv`, and the cooldown file) becomes an explicit oracle input collected
in a `World`.  Python floats are modelled as exact rationals (IEEE rounding is
out of scope for every claim considered here); Python exceptions are modelled
with `Except`; Python `dict` is modelled as an association list whose lookup
returns the most recently inserted binding.
-/

set_option maxRecDepth 10000
set_option maxHeartbeats 1000000

attribute [local semireducible] Rat.mul Rat.add Rat.sub Rat.inv

namespace FundingBot

/-- Python exception kinds that can escape the modelled functions:
`NameError` (an unbound global), a `requests` transport error
(connection error / timeout), and a JSON or value error. -/
inductive PyExc
  | nameError (missing : String)
  | requestError
  | jsonError
deriving DecidableEq, Repr

/-- In-memory cooldown mapping, symbol → last-alert epoch seconds
(`last_alerts` in the script).  Insertion is modelled by prepending, so
`List.lookup` returns the most recent binding, like a Python dict. -/
abbrev AlertMap := List (String × ℚ)

/-- Python `d.get(s, default)` on the cooldown dict. -/
def dictGet (m : AlertMap) (s : String) (d : ℚ) : ℚ :=
  (List.lookup s m).getD d

/-- Truthiness of a Python value that is either a string or `None`
(`None` and the empty string are falsy). -/
def pyTruthyStr : Option String → Bool
  | none => false
  | some s => s != ""

/-- One entry of the ticker listing response (src line 101's `result` items).
`funding_rate` is `none` when the field is missing or non-numeric, in which
case `float(t["funding_rate"])` at line 106 raises and the entry is skipped.
`mark_price`, `volume` and `timestamp` are read with `.get`, so absence does
not raise. -/
structure Ticker where
  symbol : String
  funding_rate : Option ℚ
  mark_price : Option ℚ
  volume : Option ℚ
  timestamp : Option ℚ
deriving DecidableEq, Repr

/-- A parsed contract record (the dict built at src lines 110-116). -/
structure Contract where
  symbol : String
  funding_rate : ℚ
  mark : Option ℚ
  volume : ℚ
  timestamp : Option ℚ
deriving DecidableEq, Repr

/-- ALERT_THRESHOLD = 0.0800 (src line 15), as an exact rational. -/
def ALERT_THRESHOLD : ℚ := 8 / 100

/-- The ticker-parsing loop (src lines 103-116): entries whose funding rate
does not parse are silently dropped, the rest become `Contract` records,
with `volume` defaulting to 0 (src line 114). -/
def parseContracts : List Ticker → List Contract
  | [] => []
  | t :: rest =>
    match t.funding_rate with
    | none => parseContracts rest
    | some rate =>
      { symbol := t.symbol, funding_rate := rate, mark := t.mark_price,
        volume := t.volume.getD 0, timestamp := t.timestamp } :: parseContracts rest

/-- The sort key order of src line 118: descending absolute funding rate.
`byAbsDesc x y` says `x` may come before `y`. -/
def byAbsDesc (x y : Contract) : Prop :=
  |y.funding_rate| ≤ |x.funding_rate|

instance : DecidableRel byAbsDesc :=
  fun x y => inferInstanceAs (Decidable (_ ≤ _))

instance : IsTotal Contract byAbsDesc :=
  ⟨fun a b => le_total |b.funding_rate| |a.funding_rate|⟩

instance : IsTrans Contract byAbsDesc :=
  ⟨fun _ _ _ h1 h2 => le_trans h2 h1⟩

/-- `contracts.sort(key=lambda x: abs(x["funding_rate"]), reverse=True)`
(src line 118).  Python's sort is stable, and a stable sort's output is
uniquely determined by the comparator, so we model it by stable insertion
sort with the same descending-by-absolute-rate comparator. -/
def sortByAbsDesc (l : List Contract) : List Contract :=
  List.insertionSort byAbsDesc l

/-- `top3 = contracts[:3]` after the sort (src line 119). -/
def displaySet (l : List Contract) : List Contract :=
  (sortByAbsDesc l).take 3

/-- The alert filter of src lines 136-138: members of the display set whose
absolute funding rate reaches the threshold. -/
def alertCandidates (l : List Contract) : List Contract :=
  (displaySet l).filter (fun c => ALERT_THRESHOLD ≤ |c.funding_rate|)

/-- Response of one GET to the per-product endpoint (src line 35), when no
exception was raised.  `success` is the truthiness of
`r.json().get("success")`; `product_specs = none` models a `KeyError` on the
nested `"result"`/`"product_specs"` lookup of line 37 (caught by the bare
`except`); `some field` carries `.get("rate_exchange_interval")`, with
`field = none` when that key is absent. -/
structure ProductResponse where
  ok : Bool
  success : Bool
  product_specs : Option (Option ℚ)
deriving DecidableEq, Repr

/-- Outcome of one call to the per-product endpoint: either the GET (or the
JSON decoding) raised, or a response was obtained. -/
inductive ProductFetch
  | raises
  | resp (r : ProductResponse)
deriving DecidableEq, Repr

/-- `get_funding_interval` (src lines 33-41).  Any exception is swallowed by
the bare `except` and yields `None`; on a successful response the interval
field is converted by `sec / 3600` — Python TRUE division — unless it is
absent or zero (falsy, line 38). -/
def get_funding_interval (f : ProductFetch) : Option ℚ :=
  match f with
  | .raises => none
  | .resp r =>
    if r.ok = true ∧ r.success = true then
      match r.product_specs with
      | none => none
      | some field =>
        match field with
        | none => none
        | some sec => if sec = 0 then none else some (sec / 3600)
    else none

/-- State of the cooldown file on disk.  `absent`: the file does not exist
(the `os.path.exists` check at src line 47 fails); `unreadable`: it exists but
`open`/`json.load` raises (permission error or malformed JSON); `stored m`:
it exists and parses to the mapping `m`. -/
inductive FileState
  | absent
  | unreadable
  | stored (m : AlertMap)
deriving DecidableEq, Repr

/-- `load_last_alerts` (src lines 46-50).  Only the existence of the file is
checked; a file that exists but cannot be opened or parsed makes
`open`/`json.load` raise, and nothing catches that. -/
def load_last_alerts : FileState → Except PyExc AlertMap
  | .absent => .ok []
  | .unreadable => .error .jsonError
  | .stored m => .ok m

/-- `save_last_alerts` (src lines 52-54): rewrites the whole file with the
given mapping. -/
def save_last_alerts (data : AlertMap) : FileState :=
  .stored data

/-- `can_send` (src lines 56-59).  The script reads `now = time.time()`
inside the function; here `now` is passed in explicitly as the clock-oracle
value of that call.  `last_alerts.get(symbol, 0)` defaults to 0. -/
def can_send (symbol : String) (interval_hours : ℚ) (last_alerts : AlertMap)
    (now : ℚ) : Bool :=
  decide (interval_hours * 3600 ≤ now - dictGet last_alerts symbol 0)

/-- Environment configuration read by `os.getenv` at src lines 12-13. -/
structure PyEnv where
  telegram_bot_token : Option String
  telegram_chat_id : Option String
deriving DecidableEq, Repr

/-- The module-level globals bound at load time (src lines 12-13).  Note the
module binds the names TELEGRAM_BOT_TOKEN and TELEGRAM_CHAT_ID; no global
named TELEGRAM_TOKEN is ever bound. -/
def moduleGlobals (env : PyEnv) : List (String × Option String) :=
  [("TELEGRAM_BOT_TOKEN", env.telegram_bot_token),
   ("TELEGRAM_CHAT_ID", env.telegram_chat_id)]

/-- Python name resolution for a module-level global: an unbound name raises
`NameError`. -/
def lookupGlobal (env : PyEnv) (name : String) : Except PyExc (Option String) :=
  match (moduleGlobals env).lookup name with
  | some v => .ok v
  | none => .error (.nameError name)

/-- Outcome of the `requests.post` call to the Telegram API (src lines
71-75), together with `raise_for_status` (line 76): either the post raised,
or a response with 2xx status (`status true`) / non-2xx (`status false`,
which makes `raise_for_status` raise inside the `try`) was received. -/
inductive PostOutcome
  | raises (e : PyExc)
  | status (ok : Bool)
deriving DecidableEq, Repr

/-- `send_telegram` (src lines 64-81).  Line 65 evaluates the bare name
`TELEGRAM_TOKEN` OUTSIDE the try block; since the module never binds that
name, Python name resolution raises there.  The rest of the function body is
kept for fidelity: the `or` short-circuits, and every exception inside the
`try` (lines 69-78) is converted to `False` by the `except` at line 79. -/
def send_telegram (env : PyEnv) (post : PostOutcome) (msg : String) :
    Except PyExc Bool :=
  match lookupGlobal env "TELEGRAM_TOKEN" with
  | .error e => .error e
  | .ok tok =>
    if pyTruthyStr tok = false then .ok false
    else
      match lookupGlobal env "TELEGRAM_CHAT_ID" with
      | .error e => .error e
      | .ok chat =>
        if pyTruthyStr chat = false then .ok false
        else
          match post with
          | .raises _ => .ok false
          | .status okStatus => .ok okStatus

/-- Direction label of src line 166. -/
def directionLabel (rate : ℚ) : String :=
  if rate < 0 then "Shorts pay Longs" else "Longs pay Shorts"

/-- Rendering of a rational in the alert text.  The exact decimal formatting
of `f"{x:+.4f}"` is display-only and abstracted as `num/den`; no claim
depends on the digits. -/
def ratStr (q : ℚ) : String :=
  toString q.num ++ "/" ++ toString q.den

/-- Python `int()` truncation toward zero, used as `int(interval)` at src
line 169. -/
def pyInt (q : ℚ) : Int :=
  q.num.tdiv q.den

/-- Rendering of an optional value (Python prints `None` for a missing
mark price). -/
def optStr : Option ℚ → String
  | none => "None"
  | some q => ratStr q

/-- One alert block of the composed message (src lines 165-174). -/
def alertBlock (c : Contract) (interval : ℚ) : String :=
  c.symbol ++ "\nFunding: " ++ ratStr c.funding_rate ++ "% /" ++
    toString (pyInt interval) ++ "h\nDirection: " ++
    directionLabel c.funding_rate ++ "\nMark: " ++ optStr c.mark ++
    "\nVolume: " ++ ratStr c.volume ++
    "\nhttps://www.delta.exchange/app/perpetual_futures/" ++ c.symbol ++ "\n\n"

/-- The combined message built at src lines 163-174: a header followed by one
block per element of `final_alerts`, in order. -/
def buildMessage (finals : List (Contract × ℚ)) : String :=
  finals.foldl (fun m p => m ++ alertBlock p.1 p.2) "🚨 DELTA FUNDING ALERT 🚨\n\n"

/-- Response of the ticker listing endpoint when no exception was raised
(src lines 91-101).  `success` is the truthiness of
`r.json().get("success")`. -/
structure TickersResponse where
  ok : Bool
  success : Bool
  result : List Ticker
deriving DecidableEq, Repr

/-- Outcome of the ticker fetch at src lines 91-95: either `session.get`
(or the later `r.json()`) raised — network error, timeout, or undecodable
body — or a response was obtained.  NOTE: nothing in `run` catches the
raising case. -/
inductive TickersFetch
  | raises (e : PyExc)
  | resp (r : TickersResponse)
deriving DecidableEq, Repr

/-- The external world of one `run()`: the ticker fetch outcome, the outcome
of the k-th per-product GET (0-indexed over the calls `run` makes), the value
returned by the k-th `time.time()` call made by the cooldown logic
(0-indexed from the first candidate check), the environment, the Telegram
post outcome, and the cooldown file found on disk. -/
structure World where
  tickers : TickersFetch
  product : Nat → ProductFetch
  clock : Nat → ℚ
  env : PyEnv
  post : PostOutcome
  file : FileState

/-- State threaded through the alert-candidate loop (src lines 147-154):
the symbols passed to `get_funding_interval` so far (display pass included;
its length is the index of the next per-product call), the index of the next
`time.time()` call, the accumulated `final_alerts`, and the in-memory
`last_alerts` mapping. -/
structure LoopSt where
  calls : List String
  clockIdx : Nat
  finals : List (Contract × ℚ)
  last_alerts : AlertMap

/-- The alert-candidate loop (src lines 147-154).  For each candidate the
interval is resolved afresh (one more per-product call); `if not interval:
continue` skips a `None` or zero result (both falsy); an eligible candidate
is appended to `final_alerts` and its symbol is stamped with a fresh
`time.time()` reading (line 154). -/
def alertLoop (w : World) : List Contract → LoopSt → LoopSt
  | [], st => st
  | c :: rest, st =>
    match get_funding_interval (w.product st.calls.length) with
    | none => alertLoop w rest
        { st with calls := st.calls ++ [c.symbol] }
    | some q =>
      if q = 0 then
        alertLoop w rest { st with calls := st.calls ++ [c.symbol] }
      else
        if can_send c.symbol q st.last_alerts (w.clock st.clockIdx) then
          alertLoop w rest
            { calls := st.calls ++ [c.symbol]
              clockIdx := st.clockIdx + 2
              finals := st.finals ++ [(c, q)]
              last_alerts := (c.symbol, w.clock (st.clockIdx + 1)) :: st.last_alerts }
        else
          alertLoop w rest
            { st with calls := st.calls ++ [c.symbol], clockIdx := st.clockIdx + 1 }

/-- Observable result of one `run()`: the symbols passed to the interval
resolver in order, the messages handed to `send_telegram`, whether the
notifier confirmed delivery, the final `final_alerts` batch, the final
in-memory cooldown mapping (`none` when `load_last_alerts` was never reached
or raised), the cooldown file after the run, and the run's own termination
(`.error e` meaning the exception `e` escaped `run`). -/
structure RunResult where
  resolverCalls : List String
  sendAttempts : List String
  delivered : Bool
  finals : List (Contract × ℚ)
  lastAfter : Option AlertMap
  fileAfter : FileState
  outcome : Except PyExc Unit

/-- `run()` (src lines 86-177).  The ticker fetch is NOT wrapped in
try/except, so a raising fetch propagates (src lines 91-95); a non-2xx or
unsuccessful response returns early (lines 97-99); the display pass resolves
the interval of each top-3 contract (lines 124-131); an empty candidate set
returns early before the cooldown file is even read (lines 140-142);
`load_last_alerts` may itself raise (line 144); the candidate loop builds
`final_alerts` (lines 147-154); an empty batch returns early (lines
156-158); otherwise the combined message is built and sent, and the file is
rewritten only when `send_telegram` returns True (lines 176-177). -/
def runOut (w : World) : RunResult :=
  match w.tickers with
  | .raises e =>
    ⟨[], [], false, [], none, w.file, .error e⟩
  | .resp r =>
    if r.ok = true ∧ r.success = true then
      let contracts := parseContracts r.result
      let top3 := displaySet contracts
      let displayCalls := top3.map (fun c => c.symbol)
      let cands := alertCandidates contracts
      if cands = [] then
        ⟨displayCalls, [], false, [], none, w.file, .ok ()⟩
      else
        match load_last_alerts w.file with
        | .error e => ⟨displayCalls, [], false, [], none, w.file, .error e⟩
        | .ok last0 =>
          let st := alertLoop w cands ⟨displayCalls, 0, [], last0⟩
          if st.finals = [] then
            ⟨st.calls, [], false, [], some st.last_alerts, w.file, .ok ()⟩
          else
            let msg := buildMessage st.finals
            match send_telegram w.env w.post msg with
            | .error e =>
              ⟨st.calls, [msg], false, st.finals, some st.last_alerts, w.file, .error e⟩
            | .ok true =>
              ⟨st.calls, [msg], true, st.finals, some st.last_alerts,
                save_last_alerts st.last_alerts, .ok ()⟩
            | .ok false =>
              ⟨st.calls, [msg], false, st.finals, some st.last_alerts, w.file, .ok ()⟩
    else
      ⟨[], [], false, [], none, w.file, .ok ()⟩

/-- Symbols of the display set of a run, as resolved during the display pass
(src lines 124-125); empty when the fetch raised or the response was
unsuccessful. -/
def displaySymbols (w : World) : List String :=
  match w.tickers with
  | .raises _ => []
  | .resp r =>
    if r.ok = true ∧ r.success = true then
      (displaySet (parseContracts r.result)).map (fun c => c.symbol)
    else []

/-- The loop state with which `run` enters the alert-candidate loop
(src line 147): the display pass has already made one resolver call per
top-3 contract, no `time.time()` call has been made yet, `final_alerts` is
empty, and `last_alerts` holds the loaded mapping. -/
def loopInit (last0 : AlertMap) (l : List Contract) : LoopSt :=
  ⟨(displaySet l).map (fun c => c.symbol), 0, [], last0⟩

/-- The loop state after the alert-candidate loop of `run` (src lines
147-154), as a function of the loaded cooldown mapping and the parsed
contract list. -/
def loopRun (w : World) (last0 : AlertMap) (l : List Contract) : LoopSt :=
  alertLoop w (alertCandidates l) (loopInit last0 l)

/-- A ticker whose funding rate (1, i.e. far above the threshold) parses. -/
def tkBTC : Ticker := ⟨"BTCUSD", some 1, none, none, none⟩

/-- A ticker with funding rate -1 (also above threshold in magnitude). -/
def tkETH : Ticker := ⟨"ETHUSD", some (-1), none, none, none⟩

/-- A ticker with funding rate 1. -/
def tkSOL : Ticker := ⟨"SOLUSD", some 1, none, none, none⟩

/-- A world in which the ticker fetch raises a transport error
(connection error / timeout). -/
def wRaise : World :=
  { tickers := .raises .requestError
    product := fun _ => .raises
    clock := fun _ => 0
    env := ⟨none, none⟩
    post := .status false
    file := .absent }

/-- A world in which the ticker fetch yields a non-2xx response. -/
def wBad : World :=
  { tickers := .resp ⟨false, true, []⟩
    product := fun _ => .raises
    clock := fun _ => 0
    env := ⟨none, none⟩
    post := .status false
    file := .absent }

/-- A world with a single hot contract: one ticker above threshold, every
per-product call resolving to 28800 seconds (8 hours), a constant realistic
clock, and no cooldown file. -/
def w3 : World :=
  { tickers := .resp ⟨true, true, [tkBTC]⟩
    product := fun _ => .resp ⟨true, true, some (some 28800)⟩
    clock := fun _ => 1000000000
    env := ⟨some "t", some "c"⟩
    post := .status true
    file := .absent }

/-- Like `w3` but the ticker list contains the same symbol twice. -/
def wDup : World :=
  { tickers := .resp ⟨true, true, [tkBTC, tkBTC]⟩
    product := fun _ => .resp ⟨true, true, some (some 28800)⟩
    clock := fun _ => 1000000000
    env := ⟨some "t", some "c"⟩
    post := .status true
    file := .absent }

/-- Ticker response with two above-threshold contracts. -/
def r9 : TickersResponse := ⟨true, true, [tkETH, tkSOL]⟩

/-- A world where both candidates cross the threshold but one
("ETHUSD", alerted 1 second ago according to the stored cooldown file) is
still in cooldown, while the other ("SOLUSD") is eligible. -/
def w9 : World :=
  { tickers := .resp r9
    product := fun _ => .resp ⟨true, true, some (some 28800)⟩
    clock := fun _ => 1000000000
    env := ⟨some "t", some "c"⟩
    post := .status true
    file := .stored [("ETHUSD", 999999999)] }

/-! ### Helper lemmas -/

/-- `send_telegram` evaluates the unbound global `TELEGRAM_TOKEN` outside its
try block, so every call raises `NameError`, whatever the environment, the
transport outcome and the message. -/
theorem send_telegram_value (env : PyEnv) (post : PostOutcome) (msg : String) :
    send_telegram env post msg = .error (.nameError "TELEGRAM_TOKEN") := rfl

/-- The candidate loop issues exactly one interval-resolution call per
candidate, appended in order to the calls made before it. -/
theorem alertLoop_calls (w : World) (cs : List Contract) (st : LoopSt) :
    (alertLoop w cs st).calls = st.calls ++ cs.map (fun c => c.symbol) := by
  induction cs generalizing st with
  | nil => simp [alertLoop]
  | cons c rest ih =>
    unfold alertLoop
    split
    · rw [ih]; simp
    · split
      · rw [ih]; simp
      · split
        · rw [ih]; simp
        · rw [ih]; simp

/-- No branch of `run` ever writes the cooldown file: the only write site is
guarded by `send_telegram` returning True, which never happens (it raises). -/
theorem runOut_fileAfter (w : World) : (runOut w).fileAfter = w.file := by
  simp only [runOut]
  split
  · rfl
  · split
    · split
      · rfl
      · split
        · rfl
        · split
          · rfl
          · rw [send_telegram_value]
    · rfl

/-- The notifier never confirms delivery in any run. -/
theorem runOut_not_delivered (w : World) : (runOut w).delivered = false := by
  simp only [runOut]
  split
  · rfl
  · split
    · split
      · rfl
      · split
        · rfl
        · split
          · rfl
          · rw [send_telegram_value]
    · rfl

/-- The candidate loop appends a batch `t` to `final_alerts`; symbols not in
`t` keep their previous cooldown entry, and each element of `t` leaves its
symbol stamped with some `time.time()` reading. -/
theorem alertLoop_spec (w : World) (cs : List Contract) (st : LoopSt) :
    ∃ t, (alertLoop w cs st).finals = st.finals ++ t ∧
      (∀ s, s ∉ t.map (fun p => p.1.symbol) →
        List.lookup s (alertLoop w cs st).last_alerts = List.lookup s st.last_alerts) ∧
      (∀ p ∈ t, ∃ j,
        List.lookup p.1.symbol (alertLoop w cs st).last_alerts = some (w.clock j)) := by
  induction cs generalizing st with
  | nil => exact ⟨[], by simp [alertLoop], fun s _ => by simp [alertLoop], by simp [alertLoop]⟩
  | cons c rest ih =>
    unfold alertLoop
    split
    · exact ih _
    · split
      · exact ih _
      · split
        · -- eligible: the candidate is appended and its symbol stamped
          obtain ⟨t', h1, h2, h3⟩ :=
            ih { calls := st.calls ++ [c.symbol]
                 clockIdx := st.clockIdx + 2
                 finals := st.finals ++ [(c, _)]
                 last_alerts := (c.symbol, w.clock (st.clockIdx + 1)) :: st.last_alerts }
          refine ⟨(c, _) :: t', by simpa using h1, ?_, ?_⟩
          · intro s hs
            rw [List.map_cons, List.mem_cons, not_or] at hs
            rw [h2 s hs.2]
            simp [List.lookup, beq_eq_false_iff_ne.mpr hs.1]
          · intro p hp
            rcases List.mem_cons.mp hp with hp | hp
            · subst hp
              by_cases hmem : c.symbol ∈ t'.map (fun p => p.1.symbol)
              · obtain ⟨p', hp', hsym⟩ := List.mem_map.mp hmem
                obtain ⟨j, hj⟩ := h3 p' hp'
                exact ⟨j, by rwa [hsym] at hj⟩
              · refine ⟨st.clockIdx + 1, ?_⟩
                rw [h2 _ hmem]
                simp [List.lookup]
            · exact h3 p hp
        · exact ih _

/-- If every interval the resolver reports exceeds (in seconds) any possible
clock difference during the run, the batch built by the candidate loop never
contains the same symbol twice: once a symbol is stamped, `can_send` fails
for every later occurrence. -/
theorem alertLoop_nodup (w : World)
    (hdrift : ∀ k i j q, get_funding_interval (w.product k) = some q →
      w.clock j - w.clock i < q * 3600)
    (cs : List Contract) (st : LoopSt)
    (hnd : (st.finals.map (fun p => p.1.symbol)).Nodup)
    (hlast : ∀ s ∈ st.finals.map (fun p => p.1.symbol),
      ∃ j, List.lookup s st.last_alerts = some (w.clock j)) :
    ((alertLoop w cs st).finals.map (fun p => p.1.symbol)).Nodup := by
  induction cs generalizing st with
  | nil => simpa [alertLoop] using hnd
  | cons c rest ih =>
    unfold alertLoop
    split
    · exact ih _ hnd hlast
    next q heq =>
      split
      · exact ih _ hnd hlast
      next hq0 =>
        split
        next hcan =>
          have hnotin : c.symbol ∉ st.finals.map (fun p => p.1.symbol) := by
            intro hmem
            obtain ⟨j, hj⟩ := hlast _ hmem
            have hle : q * 3600 ≤ w.clock st.clockIdx - dictGet st.last_alerts c.symbol 0 :=
              of_decide_eq_true hcan
            rw [dictGet, hj] at hle
            exact absurd hle (not_le.mpr (hdrift st.calls.length j st.clockIdx q heq))
          apply ih
          · rw [List.map_append]
            refine List.Nodup.append hnd (by simp) ?_
            intro a ha hb
            simp only [List.map_cons, List.map_nil, List.mem_singleton] at hb
            exact hnotin (hb ▸ ha)
          · intro s hs
            rw [List.map_append, List.mem_append] at hs
            rcases hs with hs | hs
            · obtain ⟨j, hj⟩ := hlast s hs
              have hne : s ≠ c.symbol := fun h => hnotin (h ▸ hs)
              exact ⟨j, by simp [List.lookup, beq_eq_false_iff_ne.mpr hne, hj]⟩
            · simp only [List.map_cons, List.map_nil, List.mem_singleton] at hs
              subst hs
              exact ⟨st.clockIdx + 1, by simp [List.lookup]⟩
        next hcan =>
          exact ih _ hnd hlast

/-- Full characterization of a run that reaches the sending stage: the
resolver trace and the batch come from the candidate loop, exactly one
message (the combined one) is handed to the notifier, the notifier raises
`NameError`, which escapes `run`, and the cooldown file is untouched. -/
theorem runOut_deep (w : World) (r : TickersResponse) (last0 : AlertMap)
    (hresp : w.tickers = .resp r) (hok : r.ok = true) (hsucc : r.success = true)
    (hload : load_last_alerts w.file = .ok last0)
    (hfin : (loopRun w last0 (parseContracts r.result)).finals ≠ []) :
    runOut w =
      ⟨(loopRun w last0 (parseContracts r.result)).calls,
        [buildMessage (loopRun w last0 (parseContracts r.result)).finals],
        false, (loopRun w last0 (parseContracts r.result)).finals,
        some (loopRun w last0 (parseContracts r.result)).last_alerts,
        w.file, .error (.nameError "TELEGRAM_TOKEN")⟩ := by
  have hcands : alertCandidates (parseContracts r.result) ≠ [] := by
    intro hc
    exact hfin (by simp [loopRun, hc, alertLoop, loopInit])
  simp only [runOut, hresp]
  rw [if_pos (show r.ok = true ∧ r.success = true from ⟨hok, hsucc⟩),
    if_neg hcands, hload]
  dsimp only
  simp only [loopRun, loopInit] at hfin ⊢
  rw [if_neg hfin, send_telegram_value]

/-- Each alert candidate symbol occurs at most as often as it occurs among
the display-set symbols (the candidates are a filtering of the display
set). -/
theorem alertCandidates_count_le (l : List Contract) (s : String) :
    ((alertCandidates l).map (fun c => c.symbol)).count s ≤
      ((displaySet l).map (fun c => c.symbol)).count s :=
  List.Sublist.count_le (List.Sublist.map _ (List.filter_sublist _)) s

/-! ### Claims -/

/-- C1 (confirmed): the cooldown store is written to disk only after the
notifier confirms successful delivery: in every run in which the notifier
does not report success — in particular when no message is sent at all — the
on-disk cooldown file is left unchanged from before the run. -/
theorem cooldown_file_unchanged_without_delivery (w : World)
    (h : (runOut w).delivered = false) : (runOut w).fileAfter = w.file :=
  runOut_fileAfter w

theorem cooldown_file_unchanged_witness :
    (runOut wRaise).delivered = false ∧ (runOut wRaise).fileAfter = wRaise.file :=
  ⟨rfl, cooldown_file_unchanged_without_delivery wRaise rfl⟩

/-- C2 (code_bug): the spec says `send_telegram` returns a boolean and never
throws past its boundary (and returns failure without a network call when
credentials are missing).  The code instead raises `NameError` on every call,
whatever the environment and transport outcome, because src line 65 tests the
unbound global `TELEGRAM_TOKEN` — the module binds `TELEGRAM_BOT_TOKEN` —
outside the try block. -/
theorem send_telegram_always_raises (env : PyEnv) (post : PostOutcome) (msg : String) :
    send_telegram env post msg = .error (.nameError "TELEGRAM_TOKEN") :=
  send_telegram_value env post msg

/-- C3 counterexample: in a run with a single distinct display symbol that is
also an alert candidate, the interval-resolution endpoint is called twice for
that symbol (display pass and alert pass), refuting "at most once per
distinct symbol". -/
theorem resolver_called_twice_cex :
    displaySymbols w3 = ["BTCUSD"] ∧ ((runOut w3).resolverCalls).count "BTCUSD" = 2 :=
  ⟨by decide, by decide⟩

/-- C3 (corrected): there is no memoization; the resolver is called once per
reference, i.e. once per display-set member plus once per alert candidate, so
each symbol is resolved at most twice as often as it occurs in the display
set (at most twice for a symbol occurring once). -/
theorem resolver_calls_at_most_twice (w : World) (s : String) :
    ((runOut w).resolverCalls).count s ≤ 2 * (displaySymbols w).count s := by
  rcases hw : w.tickers with e | r
  · simp [runOut, displaySymbols, hw]
  · simp only [runOut, displaySymbols, hw]
    by_cases hcond : r.ok = true ∧ r.success = true
    · rw [if_pos hcond, if_pos hcond]
      split
      · dsimp only
        omega
      · split
        · dsimp only
          omega
        · split
          · dsimp only
            rw [alertLoop_calls, List.count_append]
            dsimp only
            have h := alertCandidates_count_le (parseContracts r.result) s
            omega
          · rw [send_telegram_value]
            dsimp only
            rw [alertLoop_calls, List.count_append]
            dsimp only
            have h := alertCandidates_count_le (parseContracts r.result) s
            omega
    · rw [if_neg hcond, if_neg hcond]
      simp

/-- C4 counterexample: a network error or timeout on the ticker fetch is not
caught anywhere in `run`, so the exception escapes as a program-ending fault
instead of a graceful reported failure. -/
theorem fetch_exception_propagates_cex :
    (runOut wRaise).outcome = .error .requestError := rfl

/-- C4 (corrected): an unsuccessful response status (or a response whose
success flag is falsy) on the ticker fetch does terminate the run gracefully
— no alert, no delivery, no cooldown update; but a raising fetch (network
error / timeout) propagates, as the counterexample shows. -/
theorem fetch_bad_status_graceful (w : World) (r : TickersResponse)
    (hresp : w.tickers = .resp r) (hbad : ¬(r.ok = true ∧ r.success = true)) :
    (runOut w).outcome = .ok () ∧ (runOut w).sendAttempts = [] ∧
    (runOut w).delivered = false ∧ (runOut w).fileAfter = w.file := by
  simp only [runOut, hresp]
  rw [if_neg hbad]
  exact ⟨rfl, rfl, rfl, rfl⟩

theorem fetch_bad_status_graceful_witness :
    ¬((false = true) ∧ (true = true)) ∧
    ((runOut wBad).outcome = .ok () ∧ (runOut wBad).sendAttempts = [] ∧
      (runOut wBad).delivered = false ∧ (runOut wBad).fileAfter = wBad.file) :=
  ⟨by decide, fetch_bad_status_graceful wBad ⟨false, true, []⟩ rfl (by decide)⟩

/-- C5 (confirmed): for every fetched ticker list, the display set is exactly
the 3 parseable contracts of highest absolute funding rate (or fewer when
fewer exist), sorted descending by absolute funding rate: it has length
`min 3 n`, it is sorted descending, every member dominates every non-member,
and together with the rest it is a permutation of the parsed contracts. -/
theorem display_set_top3_spec (tickers : List Ticker) :
    (displaySet (parseContracts tickers)).length = min 3 (parseContracts tickers).length ∧
    List.Pairwise byAbsDesc (displaySet (parseContracts tickers)) ∧
    (∀ x ∈ displaySet (parseContracts tickers),
      ∀ y ∈ (sortByAbsDesc (parseContracts tickers)).drop 3,
        |y.funding_rate| ≤ |x.funding_rate|) ∧
    (displaySet (parseContracts tickers) ++
      (sortByAbsDesc (parseContracts tickers)).drop 3).Perm (parseContracts tickers) := by
  have hs : List.Pairwise byAbsDesc (sortByAbsDesc (parseContracts tickers)) :=
    List.sorted_insertionSort byAbsDesc (parseContracts tickers)
  have hp : (sortByAbsDesc (parseContracts tickers)).Perm (parseContracts tickers) :=
    List.perm_insertionSort byAbsDesc (parseContracts tickers)
  refine ⟨?_, ?_, ?_, ?_⟩
  · rw [displaySet, List.length_take, hp.length_eq]
  · exact List.Pairwise.sublist (List.take_sublist 3 _) hs
  · intro x hx y hy
    exact (List.pairwise_append.mp
      (by rw [displaySet] at hx ⊢; rw [List.take_append_drop] at *; exact hs)).2.2 x hx y hy
  · rw [displaySet, List.take_append_drop]
    exact hp

/-- C6 counterexample: a symbol never alerted before, with a positive
interval, is NOT eligible when `now < interval_hours * 3600` (here `now = 0`,
interval 1 hour), refuting "therefore always eligible for any
interval_hours > 0". -/
theorem can_send_not_always_eligible_cex :
    List.lookup "BTCUSD" ([] : AlertMap) = none ∧ (0 : ℚ) < 1 ∧
    can_send "BTCUSD" 1 [] 0 = false :=
  ⟨rfl, by decide, by decide⟩

/-- C6 (corrected): `can_send` returns true iff
`now - last_alert_time(symbol) ≥ interval_hours * 3600` with a default last
time of 0; hence a never-alerted symbol is eligible whenever
`now ≥ interval_hours * 3600` (true for any realistic epoch clock), not
unconditionally. -/
theorem can_send_amended (s : String) (ih : ℚ) (la : AlertMap) (now : ℚ) :
    (can_send s ih la now = true ↔ ih * 3600 ≤ now - dictGet la s 0) ∧
    (List.lookup s la = none → ih * 3600 ≤ now → can_send s ih la now = true) := by
  constructor
  · rw [can_send, decide_eq_true_eq]
  · intro h1 h2
    rw [can_send, decide_eq_true_eq, dictGet, h1]
    simpa using h2

theorem can_send_amended_witness : can_send "ETHUSD" 8 [] 1000000000 = true :=
  (can_send_amended "ETHUSD" 8 [] 1000000000).2 rfl (by decide)

/-- C7 counterexample: the interval conversion is Python TRUE division, not
integer division: an interval of 1800 seconds yields 1/2 hour, which is not
an integer (its reduced denominator is 2, not 1). -/
theorem funding_interval_fractional_cex :
    get_funding_interval (.resp ⟨true, true, some (some 1800)⟩) = some (1 / 2 : ℚ) ∧
    (1 / 2 : ℚ).den ≠ 1 :=
  ⟨by decide, by decide⟩

/-- C7 (corrected): the resolver converts seconds to hours by true division
`sec / 3600` (a positive rational when the field is positive, an integer only
when `sec` is a multiple of 3600), and returns `None` when the call raises,
the response is non-2xx or signals failure, or the field is absent or zero. -/
theorem funding_interval_true_division (r : ProductResponse) (sec : ℚ)
    (hok : r.ok = true) (hsucc : r.success = true)
    (hspecs : r.product_specs = some (some sec)) (hpos : 0 < sec) :
    get_funding_interval (.resp r) = some (sec / 3600) ∧ 0 < sec / 3600 ∧
    get_funding_interval .raises = none ∧
    (∀ r2 : ProductResponse, r2.product_specs = some none →
      get_funding_interval (.resp r2) = none) ∧
    (∀ r2 : ProductResponse, r2.product_specs = some (some 0) →
      get_funding_interval (.resp r2) = none) ∧
    (∀ r2 : ProductResponse, r2.ok = false → get_funding_interval (.resp r2) = none) ∧
    (∀ r2 : ProductResponse, r2.success = false →
      get_funding_interval (.resp r2) = none) := by
  refine ⟨?_, div_pos hpos (by norm_num), rfl, ?_, ?_, ?_, ?_⟩
  · simp [get_funding_interval, hok, hsucc, hspecs, ne_of_gt hpos]
  · intro r2 h
    simp [get_funding_interval, h]
  · intro r2 h
    simp [get_funding_interval, h]
  · intro r2 h
    simp [get_funding_interval, h]
  · intro r2 h
    simp [get_funding_interval, h]

theorem funding_interval_true_division_witness :
    get_funding_interval (.resp ⟨true, true, some (some 28800)⟩) =
      some ((28800 : ℚ) / 3600) :=
  (funding_interval_true_division ⟨true, true, some (some 28800)⟩ 28800
    rfl rfl rfl (by decide)).1

/-- C8 counterexample: a cooldown file that exists but cannot be parsed makes
`load_last_alerts` raise (nothing catches `open`/`json.load`), instead of
returning the empty mapping. -/
theorem load_unreadable_raises_cex :
    load_last_alerts .unreadable = .error .jsonError := rfl

/-- C8 (corrected): `load_last_alerts` returns the persisted mapping, and
returns the empty mapping when the file is ABSENT; but when the file exists
and is unreadable or malformed it raises. -/
theorem load_last_alerts_amended :
    load_last_alerts .absent = .ok ([] : AlertMap) ∧
    (∀ m : AlertMap, load_last_alerts (.stored m) = .ok m) ∧
    (∃ e, load_last_alerts .unreadable = .error e) :=
  ⟨rfl, fun _ => rfl, ⟨.jsonError, rfl⟩⟩

/-- C9 (confirmed): when a run reaches the alert stage and some
threshold-crossing candidates are dropped (in cooldown or without a resolved
interval), the remaining eligible candidates are still batched into ONE
combined message handed to the notifier in a single delivery attempt, and
the in-memory cooldown mapping is updated exactly at the symbols included in
that message: excluded symbols keep their previous entry, included symbols
are stamped with a `time.time()` reading. -/
theorem partial_batch_single_message (w : World) (r : TickersResponse) (last0 : AlertMap)
    (hresp : w.tickers = .resp r) (hok : r.ok = true) (hsucc : r.success = true)
    (hload : load_last_alerts w.file = .ok last0)
    (hfin : (loopRun w last0 (parseContracts r.result)).finals ≠ [])
    (hskip : (loopRun w last0 (parseContracts r.result)).finals.length <
      (alertCandidates (parseContracts r.result)).length) :
    (runOut w).sendAttempts =
      [buildMessage (loopRun w last0 (parseContracts r.result)).finals] ∧
    (runOut w).finals = (loopRun w last0 (parseContracts r.result)).finals ∧
    ∃ m, (runOut w).lastAfter = some m ∧
      (∀ s, s ∉ (loopRun w last0 (parseContracts r.result)).finals.map
          (fun p => p.1.symbol) → List.lookup s m = List.lookup s last0) ∧
      (∀ p ∈ (loopRun w last0 (parseContracts r.result)).finals,
        ∃ j, List.lookup p.1.symbol m = some (w.clock j)) := by
  have hdeep := runOut_deep w r last0 hresp hok hsucc hload hfin
  obtain ⟨t, h1, h2, h3⟩ := alertLoop_spec w (alertCandidates (parseContracts r.result))
    (loopInit last0 (parseContracts r.result))
  have hft : (loopRun w last0 (parseContracts r.result)).finals = t := by
    simpa [loopRun, loopInit] using h1
  rw [hdeep]
  refine ⟨rfl, rfl, (loopRun w last0 (parseContracts r.result)).last_alerts, rfl, ?_, ?_⟩
  · intro s hs
    rw [hft] at hs
    have := h2 s hs
    simpa [loopRun, loopInit] using this
  · intro p hp
    rw [hft] at hp
    have := h3 p hp
    simpa [loopRun, loopInit] using this

theorem partial_batch_single_message_witness :
    (runOut w9).sendAttempts =
      [buildMessage (loopRun w9 [("ETHUSD", 999999999)] (parseContracts r9.result)).finals] :=
  (partial_batch_single_message w9 r9 [("ETHUSD", 999999999)] rfl rfl rfl rfl
    (by decide) (by decide)).1

/-- C10 (confirmed, under the implicit premise that every interval the
resolver reports exceeds — in seconds — any clock difference observable
during the run, as is the case for real funding intervals of hours against a
run lasting seconds): the composed message contains at most one alert block
per symbol even when the ticker list repeats a symbol, because a symbol's
alert time is recorded in the in-memory mapping before later candidates are
checked, making `can_send` fail for any second occurrence. -/
theorem alert_message_no_duplicate_symbols (w : World)
    (hdrift : ∀ k i j q, get_funding_interval (w.product k) = some q →
      w.clock j - w.clock i < q * 3600) :
    ((runOut w).finals.map (fun p => p.1.symbol)).Nodup := by
  simp only [runOut]
  split
  · simp
  · split
    · split
      · simp
      · split
        · simp
        · split
          · simp
          · rw [send_telegram_value]
            dsimp only
            exact alertLoop_nodup w hdrift _ _ (by simp) (by simp)
    · simp

theorem alert_message_no_duplicate_symbols_witness :
    ((runOut wDup).finals.map (fun p => p.1.symbol)).Nodup :=
  alert_message_no_duplicate_symbols wDup (fun k i j q hq => by
    have h8 : get_funding_interval (wDup.product k) = some 8 := rfl
    rw [h8] at hq
    injection hq with h
    subst h
    show (1000000000 : ℚ) - 1000000000 < 8 * 3600
    decide)

end FundingBot
